import Mathlib

/-!
Shallow embedding of the `response-utils` Go package (package `responseutils`):
the response data model (`models.go`), the response emitters and
`CalculatePagination`, and the `ResponseError` constructors (`NewResponseError`,
`WithDetails`, and the named factories), together with theorems checking the
specification's claims against this embedding.

Modelling conventions:
- Go `int` is embedded as `Int`; Go integer division `/` and remainder `%`
  truncate toward zero, so they are embedded as `Int.tdiv` / `Int.tmod`.
- Go `interface{}` values stored in responses and detail maps are embedded as
  the inductive `GoValue`.
- A Go `map[string]interface{}` is embedded as an association list with unique
  keys; assignment `m[k] = v` is `mapInsert` (replace if present, else append).
  A nil Go map is `none : Option Details`; assigning into a nil map panics,
  which the embedding reports as `none`.
- An emitter call writes exactly one status code and at most one JSON body to
  the gin context; its effect is embedded as the `Emitted` value it produces.
- A Go `error` interface value passed to `ErrorResponse` is embedded as
  `ErrVal`: a `*ResponseError` pointer (possibly nil), any other non-nil error
  carrying its `Error()` message, or the nil interface. Paths on which the Go
  code dereferences a nil pointer (a panic) return `none`.
-/

namespace ResponseUtils

/-- Embedding of Go `interface{}` values as stored in response data and
error-detail maps. -/
inductive GoValue where
  | null
  | str (s : String)
  | int (n : Int)
  | bool (b : Bool)
deriving DecidableEq, Repr

/-- Embedding of the `Pagination` struct of `models.go`. -/
structure Pagination where
  page : Int
  pageSize : Int
  total : Int
  totalPages : Int
deriving DecidableEq, Repr

/-- A non-nil Go `map[string]interface{}` as an association list. -/
abbrev Details := List (String × GoValue)

/-- Embedding of the `ResponseError` struct of `models.go`. `details = none`
models a nil Go map (the zero value of the `Details` field). -/
structure ResponseError where
  code : String
  message : String
  statusCode : Int
  details : Option Details
deriving DecidableEq, Repr

/-- Go map assignment `m[k] = v` on a non-nil map: replace the entry for `k`
when present, otherwise add a new entry. -/
def mapInsert (m : Details) (k : String) (v : GoValue) : Details :=
  if m.any (fun p => decide (p.1 = k)) then
    m.map (fun p => if p.1 = k then (k, v) else p)
  else m ++ [(k, v)]

/-- Go map read `m[k]` on a non-nil map. -/
def mapLookup (k : String) : Details → Option GoValue
  | [] => none
  | p :: m => if p.1 = k then some p.2 else mapLookup k m

/-- The error-code string constants of the source. -/
def ErrCodeBadRequest : String := "BAD_REQUEST"

def ErrCodeUnauthorized : String := "UNAUTHORIZED"

def ErrCodeForbidden : String := "FORBIDDEN"

def ErrCodeNotFound : String := "NOT_FOUND"

def ErrCodeConflict : String := "CONFLICT"

def ErrCodeValidation : String := "VALIDATION_ERROR"

def ErrCodeInternalServer : String := "INTERNAL_SERVER_ERROR"

def ErrCodeDatabase : String := "DATABASE_ERROR"

def ErrCodeInvalidInput : String := "INVALID_INPUT"

def ErrCodeMissingHeader : String := "MISSING_HEADER"

def ErrCodeInvalidUUID : String := "INVALID_UUID"

def ErrCodeDuplicateEntry : String := "DUPLICATE_ENTRY"

def ErrCodeForeignKeyViolation : String := "FOREIGN_KEY_VIOLATION"

def ErrCodeInvalidBody : String := "INVALID_BODY"

def ErrUserAccountLocked : String := "ACCOUNT_LOCKED"

def ErrUnauthorizedError : String := "UNAUTHORIZED_ERROR"

/-- NewResponseError creates a ResponseError with an initialized (non-nil)
empty details map. -/
def NewResponseError (code message : String) (statusCode : Int) : ResponseError :=
  { code := code, message := message, statusCode := statusCode, details := some [] }

/-- WithDetails performs `e.Details[key] = value; return e`. On a value whose
details map is nil (the bare zero value), the Go assignment panics: embedded as
`none`. -/
def WithDetails (e : ResponseError) (k : String) (v : GoValue) : Option ResponseError :=
  match e.details with
  | some m => some { e with details := some (mapInsert m k v) }
  | none => none

/-- The Go zero value `ResponseError{}`: all fields at their zero values, in
particular a nil details map. -/
def zeroResponseError : ResponseError :=
  { code := "", message := "", statusCode := 0, details := none }

def BadRequest (message : String) : ResponseError :=
  NewResponseError ErrCodeBadRequest message 400

def Unauthorized (message : String) : ResponseError :=
  NewResponseError ErrCodeUnauthorized message 401

def Forbidden (message : String) : ResponseError :=
  NewResponseError ErrCodeForbidden message 403

def NotFound (resource : String) : ResponseError :=
  NewResponseError ErrCodeNotFound (resource ++ " not found") 404

def Conflict (message : String) : ResponseError :=
  NewResponseError ErrCodeConflict message 409

def ValidationError (message : String) : ResponseError :=
  NewResponseError ErrCodeValidation message 400

def InternalServerError (message : String) : ResponseError :=
  NewResponseError ErrCodeInternalServer message 500

/-- DatabaseError takes a Go `error` argument, embedded here by its `Error()`
message. The `WithDetails` chain cannot fail because `NewResponseError`
initializes the details map; the `none` branch is unreachable. -/
def DatabaseError (errMsg : String) : ResponseError :=
  match WithDetails (NewResponseError ErrCodeDatabase "Database operation failed" 500)
      "error" (GoValue.str errMsg) with
  | some e => e
  | none => NewResponseError ErrCodeDatabase "Database operation failed" 500

def InvalidInput (field reason : String) : ResponseError :=
  NewResponseError ErrCodeInvalidInput
    ("Invalid input for field \x27" ++ field ++ "\x27: " ++ reason) 400

def MissingHeader (header : String) : ResponseError :=
  NewResponseError ErrCodeMissingHeader ("Missing required header: " ++ header) 400

def InvalidUUID (field : String) : ResponseError :=
  NewResponseError ErrCodeInvalidUUID
    ("Invalid UUID format for field \x27" ++ field ++ "\x27") 400

def DuplicateEntry (resource : String) : ResponseError :=
  NewResponseError ErrCodeDuplicateEntry (resource ++ " already exists") 409

def ForeignKeyViolation (message : String) : ResponseError :=
  NewResponseError ErrCodeForeignKeyViolation message 400

def UnauthorizedError (message : String) : ResponseError :=
  NewResponseError ErrCodeUnauthorized message 401

def VersionExistsError (versionNumber : String) : ResponseError :=
  NewResponseError ErrCodeConflict ("Version " ++ versionNumber ++ " already exists") 409

/-- The inline error object written by ErrorResponse:
a map with keys code, message, details. -/
structure ErrBody where
  code : String
  message : String
  details : Option Details
deriving DecidableEq, Repr

/-- Embedding of the `Response` struct of `models.go` as an emitted body. -/
structure Response where
  success : Bool
  data : GoValue
  error : Option ErrBody
  message : String
deriving DecidableEq, Repr

/-- Embedding of the `ListResponse` struct of `models.go`. -/
structure ListResponse where
  success : Bool
  data : GoValue
  pagination : Option Pagination
deriving DecidableEq, Repr

/-- The JSON body written by an emitter. -/
inductive Body where
  | resp (r : Response)
  | list (l : ListResponse)
deriving DecidableEq, Repr

/-- The observable effect of one emitter call on the gin context: the status
code set and the body written (`none` for a bare status write). -/
structure Emitted where
  status : Int
  body : Option Body
deriving DecidableEq, Repr

/-- A Go `error` interface value as received by ErrorResponse. -/
inductive ErrVal where
  | respErrPtr (p : Option ResponseError)
  | otherErr (msg : String)
  | nilErr
deriving DecidableEq, Repr

/-- SuccessResponse writes `Response` with success true, the given data and
message, at the given status. -/
def SuccessResponse (statusCode : Int) (data : GoValue) (message : String) : Emitted :=
  { status := statusCode,
    body := some (Body.resp
      { success := true, data := data, error := none, message := message }) }

/-- ErrorResponse: a non-nil `*ResponseError` is rendered from its own fields
at its own status; any other non-nil error falls through to the 500 fallback
built from its `Error()` message. A nil `*ResponseError` pointer reaches
`appErr.StatusCode` and panics; a nil interface reaches `err.Error()` and
panics: both are embedded as `none`. -/
def ErrorResponse : ErrVal → Option Emitted
  | ErrVal.respErrPtr (some appErr) =>
      some { status := appErr.statusCode,
             body := some (Body.resp
               { success := false, data := GoValue.null,
                 error := some { code := appErr.code, message := appErr.message,
                                 details := appErr.details },
                 message := "" }) }
  | ErrVal.respErrPtr none => none
  | ErrVal.otherErr msg =>
      some { status := 500,
             body := some (Body.resp
               { success := false, data := GoValue.null,
                 error := some { code := ErrCodeInternalServer,
                                 message := "An unexpected error occurred",
                                 details := some [("error", GoValue.str msg)] },
                 message := "" }) }
  | ErrVal.nilErr => none

def CreatedResponse (data : GoValue) (message : String) : Emitted :=
  SuccessResponse 201 data message

def UpdatedResponse (data : GoValue) (message : String) : Emitted :=
  SuccessResponse 202 data message

def OKResponse (data : GoValue) (message : String) : Emitted :=
  SuccessResponse 200 data message

/-- NoContentResponse performs `c.Status(204)`: a bare status write, no body. -/
def NoContentResponse : Emitted :=
  { status := 204, body := none }

def ListResponseWithPagination (data : GoValue) (pagination : Option Pagination) : Emitted :=
  { status := 200,
    body := some (Body.list
      { success := true, data := data, pagination := pagination }) }

/-- CalculatePagination with Go truncated integer division and remainder. -/
def CalculatePagination (page pageSize total : Int) : Pagination :=
  let page1 := if page < 1 then 1 else page
  let pageSize1 := if pageSize < 1 then 20 else pageSize
  let totalPages1 :=
    if Int.tmod total pageSize1 ≠ 0 then Int.tdiv total pageSize1 + 1
    else Int.tdiv total pageSize1
  { page := page1, pageSize := pageSize1, total := total, totalPages := totalPages1 }

/-- State-passing reading of the `*ResponseError` branch of ErrorResponse,
threading the receiver through: the Go body only reads `appErr.StatusCode`,
`appErr.Code`, `appErr.Message`, `appErr.Details` and contains no assignment
to `appErr`, so the receiver leaves the call as it entered it. -/
def ErrorResponseFrame (appErr : ResponseError) : Emitted × ResponseError :=
  ({ status := appErr.statusCode,
     body := some (Body.resp
       { success := false, data := GoValue.null,
         error := some { code := appErr.code, message := appErr.message,
                         details := appErr.details },
         message := "" }) },
   appErr)

theorem CalculatePagination_totalPages_eq (page pageSize total : Int) :
    (CalculatePagination page pageSize total).totalPages =
      if Int.tmod total (if pageSize < 1 then 20 else pageSize) ≠ 0 then
        Int.tdiv total (if pageSize < 1 then 20 else pageSize) + 1
      else Int.tdiv total (if pageSize < 1 then 20 else pageSize) := rfl

/-- C2 counterexample: with pageSize 10 > 0 and total -5, the exact rational
ceiling of total over pageSize is 0, but Go truncated division gives
tdiv (-5) 10 = 0 with nonzero remainder -5, so the code returns 1 total
page. -/
theorem CalculatePagination_ceil_cex :
    (CalculatePagination 1 10 (-5)).totalPages ≠
      ⌈(((-5 : Int)) : ℚ) / (((10 : Int)) : ℚ)⌉ := by
  have h1 : (CalculatePagination 1 10 (-5)).totalPages = 1 := by decide
  have h2 : ⌈(((-5 : Int)) : ℚ) / (((10 : Int)) : ℚ)⌉ = 0 := by
    rw [Int.ceil_eq_iff]
    constructor <;> push_cast <;> norm_num
  rw [h1, h2]
  decide

/-- C2 amended: for pageSize > 0 and total ≥ 0, CalculatePagination returns
total_pages equal to the exact rational ceiling of total over pageSize, and
page and page_size echo the clamped inputs. (For negative totals the code's
truncated division departs from the rational ceiling.) -/
theorem CalculatePagination_ceil (page pageSize total : Int)
    (hps : 0 < pageSize) (ht : 0 ≤ total) :
    (CalculatePagination page pageSize total).totalPages =
      ⌈(total : ℚ) / (pageSize : ℚ)⌉ ∧
    (CalculatePagination page pageSize total).page = (if page < 1 then 1 else page) ∧
    (CalculatePagination page pageSize total).pageSize = pageSize := by
  have hps1 : ¬ pageSize < 1 := by omega
  refine ⟨?_, rfl, ?_⟩
  · rw [CalculatePagination_totalPages_eq, if_neg hps1]
    have hq : pageSize * Int.tdiv total pageSize + Int.tmod total pageSize = total :=
      Int.tdiv_add_tmod total pageSize
    have hr0 : 0 ≤ Int.tmod total pageSize := Int.tmod_nonneg pageSize ht
    have hrlt : Int.tmod total pageSize < pageSize := Int.tmod_lt_of_pos total hps
    have hpsQ : (0 : ℚ) < (pageSize : ℚ) := by exact_mod_cast hps
    by_cases hr : Int.tmod total pageSize = 0
    · rw [if_neg (by simp [hr])]
      have htot : (total : ℚ) = (pageSize : ℚ) * ((Int.tdiv total pageSize : Int) : ℚ) := by
        exact_mod_cast (by omega : total = pageSize * Int.tdiv total pageSize)
      rw [htot, mul_div_cancel_left₀ _ (ne_of_gt hpsQ), Int.ceil_intCast]
    · rw [if_pos hr]
      have hrpos : 0 < Int.tmod total pageSize := lt_of_le_of_ne hr0 (Ne.symm hr)
      symm
      rw [Int.ceil_eq_iff]
      constructor
      · have h1 : Int.tdiv total pageSize * pageSize < total := by
          have := hq
          nlinarith [hq, hrpos, mul_comm pageSize (Int.tdiv total pageSize)]
        push_cast
        rw [show ((Int.tdiv total pageSize : Int) : ℚ) + 1 - 1 =
              ((Int.tdiv total pageSize : Int) : ℚ) by ring]
        rw [lt_div_iff₀ hpsQ]
        exact_mod_cast h1
      · have h2 : total ≤ (Int.tdiv total pageSize + 1) * pageSize := by
          have e : (Int.tdiv total pageSize + 1) * pageSize =
              pageSize * Int.tdiv total pageSize + pageSize := by ring
          omega
        push_cast
        rw [div_le_iff₀ hpsQ]
        exact_mod_cast h2
  · show (if pageSize < 1 then 20 else pageSize) = pageSize
    rw [if_neg hps1]

/-- C2 witness: the spec's own example with pageSize 10, total 95 gives 10
total pages, the ceiling of 95 over 10. -/
theorem CalculatePagination_ceil_witness :
    (0 : Int) < 10 ∧ (0 : Int) ≤ 95 ∧
    ((CalculatePagination 2 10 95).totalPages =
        ⌈(((95 : Int)) : ℚ) / (((10 : Int)) : ℚ)⌉ ∧
      (CalculatePagination 2 10 95).page = (if (2 : Int) < 1 then 1 else 2) ∧
      (CalculatePagination 2 10 95).pageSize = 10) :=
  ⟨by decide, by decide, CalculatePagination_ceil 2 10 95 (by decide) (by decide)⟩

/-- C3 counterexample: at page 1, pageSize 10, total -5, the claimed formula
with exact mathematical floor and mod gives fdiv (-5) 10 + 1 indicator over
emod = -1 + 1 = 0, and the claimed sign bound says the result is at most 0;
the code returns 1. -/
theorem CalculatePagination_floor_cex :
    (CalculatePagination 1 10 (-5)).totalPages ≠
      Int.fdiv (-5) 10 + (if Int.emod (-5) 10 ≠ 0 then 1 else 0) ∧
    ¬ (CalculatePagination 1 10 (-5)).totalPages ≤ 0 := by
  constructor <;> decide

/-- C3 amended: CalculatePagination computes total_pages as Go truncated
division tdiv total pageSize plus 1 exactly when the truncated remainder
tmod total pageSize is nonzero, with pageSize the clamped page size; a
negative total therefore produces a page count of at most 1 (negative, zero,
or one). -/
theorem CalculatePagination_trunc (page pageSize total : Int) :
    ((CalculatePagination page pageSize total).totalPages =
      Int.tdiv total (if pageSize < 1 then 20 else pageSize) +
        (if Int.tmod total (if pageSize < 1 then 20 else pageSize) ≠ 0 then 1 else 0)) ∧
    (total < 0 → (CalculatePagination page pageSize total).totalPages ≤ 1) := by
  constructor
  · rw [CalculatePagination_totalPages_eq]
    split <;> omega
  · intro htneg
    have hdiv : ∀ ps : Int, 0 ≤ ps → Int.tdiv total ps ≤ 0 := by
      intro ps hps0
      have hnn : (0 : Int) ≤ -total := by omega
      have h := Int.tdiv_nonneg hnn hps0
      rw [Int.neg_tdiv] at h
      omega
    rw [CalculatePagination_totalPages_eq]
    by_cases hc : pageSize < 1
    · rw [if_pos hc]
      have := hdiv 20 (by omega)
      split <;> omega
    · rw [if_neg hc]
      have := hdiv pageSize (by omega)
      split <;> omega

/-- C3 witness: at total -20 with pageSize 10 the code follows the truncated
formula and returns -2 total pages, which is at most 1. -/
theorem CalculatePagination_trunc_witness :
    ((CalculatePagination 1 10 (-20)).totalPages =
      Int.tdiv (-20) (if (10 : Int) < 1 then 20 else 10) +
        (if Int.tmod (-20) (if (10 : Int) < 1 then 20 else 10) ≠ 0 then 1 else 0)) ∧
    (CalculatePagination 1 10 (-20)).totalPages ≤ 1 :=
  ⟨(CalculatePagination_trunc 1 10 (-20)).1,
   (CalculatePagination_trunc 1 10 (-20)).2 (by decide)⟩

/-- C1: for every error input that is a (non-nil) `*ResponseError`,
ErrorResponse writes a body with success false and an error object taken
from the fields code, message, details of the error, at status
`err.StatusCode`; for every other (non-nil) error input it writes the
INTERNAL_SERVER_ERROR fallback body, whose details map one key error to the
input's message, at status 500. -/
theorem ErrorResponse_dispatch (e : ResponseError) (msg : String) :
    ErrorResponse (ErrVal.respErrPtr (some e)) =
      some { status := e.statusCode,
             body := some (Body.resp
               { success := false, data := GoValue.null,
                 error := some { code := e.code, message := e.message,
                                 details := e.details },
                 message := "" }) } ∧
    ErrorResponse (ErrVal.otherErr msg) =
      some { status := 500,
             body := some (Body.resp
               { success := false, data := GoValue.null,
                 error := some { code := "INTERNAL_SERVER_ERROR",
                                 message := "An unexpected error occurred",
                                 details := some [("error", GoValue.str msg)] },
                 message := "" }) } :=
  ⟨rfl, rfl⟩

/-- C4 counterexample: emission is not total over every value of the error
argument. On the nil error interface the fallback branch calls `err.Error()`
on nil and panics, and on a nil `*ResponseError` pointer the first branch
reads `appErr.StatusCode` through a nil pointer and panics; neither input
produces a response. -/
theorem ErrorResponse_nil_cex :
    ErrorResponse ErrVal.nilErr = none ∧
    ErrorResponse (ErrVal.respErrPtr none) = none :=
  ⟨rfl, rfl⟩

/-- C4 amended: for every error input other than the nil interface and the
nil `*ResponseError` pointer, ErrorResponse completes by writing a body and a
status (the remaining emitters are total functions of their arguments by
construction). -/
theorem ErrorResponse_total (v : ErrVal)
    (hnil : v ≠ ErrVal.nilErr) (hptr : v ≠ ErrVal.respErrPtr none) :
    (ErrorResponse v).isSome = true := by
  cases v with
  | respErrPtr p =>
      cases p with
      | some e => rfl
      | none => exact absurd rfl hptr
  | otherErr msg => rfl
  | nilErr => exact absurd rfl hnil

/-- C4 witness: ErrorResponse completes on a concrete ordinary error. -/
theorem ErrorResponse_total_witness :
    (ErrorResponse (ErrVal.otherErr "connection refused")).isSome = true :=
  ErrorResponse_total (ErrVal.otherErr "connection refused") (by decide) (by decide)

/-- C5: every Pagination produced by CalculatePagination has page and
page_size at least 1; a non-positive page input is replaced by 1 and a
non-positive pageSize input by 20, while positive inputs pass through
unchanged. -/
theorem CalculatePagination_clamp (page pageSize total : Int) :
    1 ≤ (CalculatePagination page pageSize total).page ∧
    1 ≤ (CalculatePagination page pageSize total).pageSize ∧
    (page ≤ 0 → (CalculatePagination page pageSize total).page = 1) ∧
    (0 < page → (CalculatePagination page pageSize total).page = page) ∧
    (pageSize ≤ 0 → (CalculatePagination page pageSize total).pageSize = 20) ∧
    (0 < pageSize → (CalculatePagination page pageSize total).pageSize = pageSize) := by
  simp only [CalculatePagination]
  refine ⟨?_, ?_, ?_, ?_, ?_, ?_⟩ <;> split_ifs <;> omega

/-- C5 witness: the spec's example `CalculatePagination(0, 0, 100)` is clamped
to page 1 and page size 20. -/
theorem CalculatePagination_clamp_witness :
    (CalculatePagination 0 0 100).page = 1 ∧
    (CalculatePagination 0 0 100).pageSize = 20 :=
  ⟨(CalculatePagination_clamp 0 0 100).2.2.1 (by decide),
   (CalculatePagination_clamp 0 0 100).2.2.2.2.1 (by decide)⟩

/-- C6: each named factory returns exactly the (code, statusCode, message) of
the spec's factory table, with an initialized empty details map, except
DatabaseError whose details map exactly the key error to the argument's
message. -/
theorem Factories_table (msg resource field reason header v errMsg : String) :
    BadRequest msg =
      { code := "BAD_REQUEST", message := msg, statusCode := 400, details := some [] } ∧
    Unauthorized msg =
      { code := "UNAUTHORIZED", message := msg, statusCode := 401, details := some [] } ∧
    Forbidden msg =
      { code := "FORBIDDEN", message := msg, statusCode := 403, details := some [] } ∧
    NotFound resource =
      { code := "NOT_FOUND", message := resource ++ " not found", statusCode := 404,
        details := some [] } ∧
    Conflict msg =
      { code := "CONFLICT", message := msg, statusCode := 409, details := some [] } ∧
    ValidationError msg =
      { code := "VALIDATION_ERROR", message := msg, statusCode := 400,
        details := some [] } ∧
    InternalServerError msg =
      { code := "INTERNAL_SERVER_ERROR", message := msg, statusCode := 500,
        details := some [] } ∧
    DatabaseError errMsg =
      { code := "DATABASE_ERROR", message := "Database operation failed",
        statusCode := 500, details := some [("error", GoValue.str errMsg)] } ∧
    InvalidInput field reason =
      { code := "INVALID_INPUT",
        message := "Invalid input for field \x27" ++ field ++ "\x27: " ++ reason,
        statusCode := 400, details := some [] } ∧
    MissingHeader header =
      { code := "MISSING_HEADER", message := "Missing required header: " ++ header,
        statusCode := 400, details := some [] } ∧
    InvalidUUID field =
      { code := "INVALID_UUID",
        message := "Invalid UUID format for field \x27" ++ field ++ "\x27",
        statusCode := 400, details := some [] } ∧
    DuplicateEntry resource =
      { code := "DUPLICATE_ENTRY", message := resource ++ " already exists",
        statusCode := 409, details := some [] } ∧
    ForeignKeyViolation msg =
      { code := "FOREIGN_KEY_VIOLATION", message := msg, statusCode := 400,
        details := some [] } ∧
    UnauthorizedError msg =
      { code := "UNAUTHORIZED", message := msg, statusCode := 401, details := some [] } ∧
    VersionExistsError v =
      { code := "CONFLICT", message := "Version " ++ v ++ " already exists",
        statusCode := 409, details := some [] } :=
  ⟨rfl, rfl, rfl, rfl, rfl, rfl, rfl, rfl, rfl, rfl, rfl, rfl, rfl, rfl, rfl⟩

/-- C8: OKResponse, CreatedResponse, UpdatedResponse are SuccessResponse at
the fixed statuses 200, 201, 202; NoContentResponse writes status 204 with no
body at all; and ListResponseWithPagination writes success true with the
given data and pagination at status 200, for every data and pagination. -/
theorem Wrappers_status (data : GoValue) (message : String) (pag : Option Pagination) :
    OKResponse data message = SuccessResponse 200 data message ∧
    CreatedResponse data message = SuccessResponse 201 data message ∧
    UpdatedResponse data message = SuccessResponse 202 data message ∧
    (OKResponse data message).status = 200 ∧
    (CreatedResponse data message).status = 201 ∧
    (UpdatedResponse data message).status = 202 ∧
    NoContentResponse = { status := 204, body := none } ∧
    ListResponseWithPagination data pag =
      { status := 200,
        body := some (Body.list
          { success := true, data := data, pagination := pag }) } :=
  ⟨rfl, rfl, rfl, rfl, rfl, rfl, rfl, rfl⟩

/-- C9: emitting a `*ResponseError` does not mutate it. In the state-passing
reading of the branch, the receiver after the call equals the receiver before
it, field by field, and the emitted response agrees with ErrorResponse. -/
theorem ErrorResponse_frame (e : ResponseError) :
    some (ErrorResponseFrame e).1 = ErrorResponse (ErrVal.respErrPtr (some e)) ∧
    (ErrorResponseFrame e).2 = e ∧
    (ErrorResponseFrame e).2.code = e.code ∧
    (ErrorResponseFrame e).2.message = e.message ∧
    (ErrorResponseFrame e).2.statusCode = e.statusCode ∧
    (ErrorResponseFrame e).2.details = e.details :=
  ⟨rfl, rfl, rfl, rfl, rfl, rfl⟩

theorem mapLookup_mapInsert (m : Details) (k : String) (v : GoValue) :
    mapLookup k (mapInsert m k v) = some v := by
  unfold mapInsert
  split
  · rename_i h
    induction m with
    | nil => simp at h
    | cons p m ih =>
        simp only [List.any_cons, Bool.or_eq_true, decide_eq_true_eq] at h
        by_cases hp : p.1 = k
        · simp [mapLookup, hp]
        · rcases h with h | h
          · exact absurd h hp
          · simp only [List.map_cons, if_neg hp, mapLookup]
            exact ih h
  · rename_i h
    rw [Bool.not_eq_true] at h
    induction m with
    | nil => simp [mapLookup]
    | cons p m ih =>
        simp only [List.any_cons, Bool.or_eq_false_iff, decide_eq_false_iff_not] at h
        simp only [List.cons_append, mapLookup]
        rw [if_neg h.1]
        exact ih h.2

theorem keys_replace (m : Details) (k : String) (v : GoValue) :
    (m.map (fun p => if p.1 = k then (k, v) else p)).map Prod.fst =
      m.map Prod.fst := by
  induction m with
  | nil => rfl
  | cons p m ih =>
      by_cases hp : p.1 = k
      · simp only [List.map_cons, if_pos hp, ih]
        rw [hp]
      · simp only [List.map_cons, if_neg hp, ih]

theorem countP_replace (m : Details) (k : String) (v : GoValue) :
    (m.map (fun p => if p.1 = k then (k, v) else p)).countP
        (fun p => decide (p.1 = k)) =
      m.countP (fun p => decide (p.1 = k)) := by
  induction m with
  | nil => rfl
  | cons p m ih =>
      by_cases hp : p.1 = k
      · simp [List.countP_cons, hp, ih]
      · simp [List.countP_cons, hp, ih]

theorem countP_le_one_of_nodupKeys (m : Details) (k : String)
    (hnd : (m.map Prod.fst).Nodup) :
    m.countP (fun p => decide (p.1 = k)) ≤ 1 := by
  induction m with
  | nil => simp
  | cons p m ih =>
      simp only [List.map_cons, List.nodup_cons] at hnd
      by_cases hp : p.1 = k
      · have h0 : m.countP (fun p => decide (p.1 = k)) = 0 := by
          rw [List.countP_eq_zero]
          intro a ha
          simp only [decide_eq_true_eq]
          intro hak
          have hmem : a.1 ∈ m.map Prod.fst := List.mem_map_of_mem Prod.fst ha
          rw [hak, ← hp] at hmem
          exact hnd.1 hmem
        simp [List.countP_cons, hp, h0]
      · simpa [List.countP_cons, hp] using ih hnd.2

theorem keys_mapInsert_nodup (m : Details) (k : String) (v : GoValue)
    (hnd : (m.map Prod.fst).Nodup) :
    ((mapInsert m k v).map Prod.fst).Nodup := by
  unfold mapInsert
  split
  · rename_i h
    rw [keys_replace]
    exact hnd
  · rename_i h
    rw [Bool.not_eq_true] at h
    rw [List.map_append, List.nodup_append]
    refine ⟨hnd, List.nodup_singleton k, ?_⟩
    intro a ha hb
    rw [List.map_cons, List.map_nil, List.mem_singleton] at hb
    rw [List.any_eq_false] at h
    obtain ⟨p, hp, hpk⟩ := List.mem_map.1 ha
    exact absurd (by simp [hpk, hb] : decide (p.1 = k) = true) (by simpa using h p hp)

theorem countP_mapInsert (m : Details) (k : String) (v : GoValue)
    (hnd : (m.map Prod.fst).Nodup) :
    (mapInsert m k v).countP (fun p => decide (p.1 = k)) = 1 := by
  unfold mapInsert
  split
  · rename_i h
    rw [countP_replace]
    have h1 : 0 < m.countP (fun p => decide (p.1 = k)) := by
      rw [List.countP_pos_iff]
      rw [List.any_eq_true] at h
      obtain ⟨a, ha, hak⟩ := h
      exact ⟨a, ha, hak⟩
    have h2 := countP_le_one_of_nodupKeys m k hnd
    omega
  · rename_i h
    rw [Bool.not_eq_true] at h
    rw [List.countP_append]
    have h0 : m.countP (fun p => decide (p.1 = k)) = 0 := by
      rw [List.countP_eq_zero]
      intro a ha
      rw [List.any_eq_false] at h
      simpa using h a ha
    simp [h0, List.countP_cons]

/-- C7: on every ResponseError whose details map is initialized (a map with
unique keys, as every Go map is), chaining WithDetails twice on the same key
succeeds, leaves exactly one entry for that key holding the second value
(last write wins, no accumulation), returns the mutated receiver itself (the
result carries the receiver's code, message and statusCode unchanged), and
neither call fails. -/
theorem WithDetails_upsert (e : ResponseError) (m : Details) (k : String)
    (v1 v2 : GoValue) (hm : e.details = some m)
    (hnd : (m.map Prod.fst).Nodup) :
    ∃ e1 e2, WithDetails e k v1 = some e1 ∧ WithDetails e1 k v2 = some e2 ∧
      e2.details = some (mapInsert (mapInsert m k v1) k v2) ∧
      mapLookup k (mapInsert (mapInsert m k v1) k v2) = some v2 ∧
      (mapInsert (mapInsert m k v1) k v2).countP (fun p => decide (p.1 = k)) = 1 ∧
      e2.code = e.code ∧ e2.message = e.message ∧ e2.statusCode = e.statusCode := by
  refine ⟨{ e with details := some (mapInsert m k v1) },
    { e with details := some (mapInsert (mapInsert m k v1) k v2) },
    ?_, rfl, rfl, ?_, ?_, rfl, rfl, rfl⟩
  · simp [WithDetails, hm]
  · exact mapLookup_mapInsert _ k v2
  · exact countP_mapInsert _ k v2 (keys_mapInsert_nodup m k v1 hnd)

/-- C7 witness: the spec's example, two writes to the same key on a factory
error, observed on the concrete value. -/
theorem WithDetails_upsert_witness :
    ∃ e1 e2,
      WithDetails (ValidationError "User validation failed") "a" (GoValue.int 1) =
        some e1 ∧
      WithDetails e1 "a" (GoValue.int 2) = some e2 ∧
      e2.details =
        some (mapInsert (mapInsert [] "a" (GoValue.int 1)) "a" (GoValue.int 2)) ∧
      mapLookup "a" (mapInsert (mapInsert [] "a" (GoValue.int 1)) "a" (GoValue.int 2)) =
        some (GoValue.int 2) ∧
      (mapInsert (mapInsert [] "a" (GoValue.int 1)) "a" (GoValue.int 2)).countP
          (fun p => decide (p.1 = "a")) = 1 ∧
      e2.code = (ValidationError "User validation failed").code ∧
      e2.message = (ValidationError "User validation failed").message ∧
      e2.statusCode = (ValidationError "User validation failed").statusCode :=
  WithDetails_upsert (ValidationError "User validation failed") [] "a"
    (GoValue.int 1) (GoValue.int 2) rfl (by simp)

/-- C10: NewResponseError and every named factory produce a ResponseError
with a non-nil details map (empty, except DatabaseError), WithDetails
preserves having a non-nil details map, and on the bare zero value, whose
details map was never initialized, WithDetails faults. -/
theorem Details_initialized (c m : String) (s : Int) (e : ResponseError)
    (k msg field reason : String) (v : GoValue)
    (he : e.details.isSome = true) :
    (NewResponseError c m s).details = some [] ∧
    (BadRequest msg).details.isSome = true ∧
    (Unauthorized msg).details.isSome = true ∧
    (Forbidden msg).details.isSome = true ∧
    (NotFound msg).details.isSome = true ∧
    (Conflict msg).details.isSome = true ∧
    (ValidationError msg).details.isSome = true ∧
    (InternalServerError msg).details.isSome = true ∧
    (DatabaseError msg).details = some [("error", GoValue.str msg)] ∧
    (InvalidInput field reason).details.isSome = true ∧
    (MissingHeader msg).details.isSome = true ∧
    (InvalidUUID field).details.isSome = true ∧
    (DuplicateEntry msg).details.isSome = true ∧
    (ForeignKeyViolation msg).details.isSome = true ∧
    (UnauthorizedError msg).details.isSome = true ∧
    (VersionExistsError msg).details.isSome = true ∧
    (∃ e1, WithDetails e k v = some e1 ∧ e1.details.isSome = true) ∧
    WithDetails zeroResponseError k v = none := by
  refine ⟨rfl, rfl, rfl, rfl, rfl, rfl, rfl, rfl, rfl, rfl, rfl, rfl, rfl, rfl,
    rfl, rfl, ?_, rfl⟩
  obtain ⟨m1, hm1⟩ := Option.isSome_iff_exists.1 he
  exact ⟨{ e with details := some (mapInsert m1 k v) }, by simp [WithDetails, hm1], rfl⟩

/-- C10 witness: the guarantee observed on a concrete factory value, and the
fault observed on the zero value. -/
theorem Details_initialized_witness :
    (NewResponseError "CUSTOM_ERROR" "custom" 418).details = some [] ∧
    (BadRequest "b").details.isSome = true ∧
    (Unauthorized "b").details.isSome = true ∧
    (Forbidden "b").details.isSome = true ∧
    (NotFound "b").details.isSome = true ∧
    (Conflict "b").details.isSome = true ∧
    (ValidationError "b").details.isSome = true ∧
    (InternalServerError "b").details.isSome = true ∧
    (DatabaseError "b").details = some [("error", GoValue.str "b")] ∧
    (InvalidInput "f" "r").details.isSome = true ∧
    (MissingHeader "b").details.isSome = true ∧
    (InvalidUUID "f").details.isSome = true ∧
    (DuplicateEntry "b").details.isSome = true ∧
    (ForeignKeyViolation "b").details.isSome = true ∧
    (UnauthorizedError "b").details.isSome = true ∧
    (VersionExistsError "b").details.isSome = true ∧
    (∃ e1, WithDetails (BadRequest "b") "a" (GoValue.int 1) = some e1 ∧
      e1.details.isSome = true) ∧
    WithDetails zeroResponseError "a" (GoValue.int 1) = none :=
  Details_initialized "CUSTOM_ERROR" "custom" 418 (BadRequest "b") "a" "b" "f" "r"
    (GoValue.int 1) rfl

end ResponseUtils
